import Mathlib

/-!
Shallow embedding of the protocol / state-synchronization core of the
`js-launchpad` library (`src/Launchpad.js`), together with theorems that
check the natural-language specification against it.

Conventions of the embedding:
* JavaScript numbers that the code uses as integers are modelled as `Int`;
  the one place where a non-number (`NaN`) can flow is the velocity
  computation when exactly one of `r`/`g` is defined, modelled as `none`
  in an `Option Int` (`jsByte` maps it to `0`, as `Uint8Array` does).
* A JavaScript value passed as a `color` argument is modelled by
  `ColorArg`: either not an object (`null`, `undefined`, a primitive), or
  an object whose `name`/`r`/`g`/`htmlColorCode` properties may each be
  present or `undefined`.
* Wire messages are the byte lists handed to `output.send`; listener
  notifications (`_dispatchListener` calls) are recorded as an `Event`
  list in the order they are dispatched.
* Commands return a `CmdResult`: the messages sent before returning or
  throwing, the notifications dispatched, and either the final state or
  the thrown error message.  A thrown validation error therefore shows up
  as `Except.error` with the messages that were sent before the throw
  (none, when validation precedes all sends).
* `this._pressedButtons` is a JS `Set` of button objects; buttons are
  uniquely identified by `name`, so it is modelled as a `Finset String`
  of button names.
-/

namespace Launchpad

/-- A button object as built by `buttonGenerator`: `name`, optional grid
coordinates and exactly one of the two addressing keys (`undefined` is
modelled by `none`). -/
structure Button where
  name : String
  x : Option Int
  y : Option Int
  _note_key : Option Int
  _automap_key : Option Int
deriving DecidableEq

/-- A JavaScript value passed where a color is expected. -/
inductive ColorArg where
  | nonObject : ColorArg
  | obj (name : Option String) (r : Option Int) (g : Option Int)
      (htmlColorCode : Option String) : ColorArg
deriving DecidableEq

/-- JS truthiness of a color argument: `nonObject` stands for
`null`/`undefined` (falsy); objects are always truthy. -/
def ColorArg.truthy : ColorArg → Bool
  | ColorArg.nonObject => false
  | ColorArg.obj _ _ _ _ => true

/-- `colorGenerator(name, r, g, htmlColorCode)` from the source: builds a
frozen color object with all four properties defined. -/
def colorGenerator (name : String) (r g : Int) (htmlColorCode : String) : ColorArg :=
  ColorArg.obj (some name) (some r) (some g) (some htmlColorCode)

def Colors.Off : ColorArg := colorGenerator "Off" 0 0 "#555555"
def Colors.GreenLow : ColorArg := colorGenerator "GreenLow" 0 1 "#687b49"
def Colors.GreenMed : ColorArg := colorGenerator "GreenMed" 0 2 "#8a9f47"
def Colors.Green : ColorArg := colorGenerator "Green" 0 3 "#a8cc36"
def Colors.RedLow : ColorArg := colorGenerator "RedLow" 1 0 "#8a4b4b"
def Colors.RedMed : ColorArg := colorGenerator "RedMed" 2 0 "#a14e4e"
def Colors.Red : ColorArg := colorGenerator "Red" 3 0 "#e02323"
def Colors.OrangeMed : ColorArg := colorGenerator "OrangeMed" 2 1 "#ca6919"
def Colors.Orange : ColorArg := colorGenerator "Orange" 3 2 "#db7018"
def Colors.YellowMed : ColorArg := colorGenerator "YellowMed" 1 2 "#bbad25"
def Colors.Yellow : ColorArg := colorGenerator "Yellow" 2 3 "#dbc708"
def Colors.AmberLow : ColorArg := colorGenerator "AmberLow" 1 1 "#9f721a"
def Colors.AmberMed : ColorArg := colorGenerator "AmberMed" 2 2 "#c18819"
def Colors.Amber : ColorArg := colorGenerator "Amber" 3 3 "#ffba32"
def Colors.Lime : ColorArg := colorGenerator "Lime" 1 3 "#d0e021"
def Colors.OrangeRed : ColorArg := colorGenerator "OrangeRed" 3 1 "#f3581f"

/-- The fixed 16-entry palette, in source declaration order. -/
def launchpadColors : List ColorArg :=
  [Colors.Off, Colors.GreenLow, Colors.GreenMed, Colors.Green,
   Colors.RedLow, Colors.RedMed, Colors.Red, Colors.OrangeMed,
   Colors.Orange, Colors.YellowMed, Colors.Yellow, Colors.AmberLow,
   Colors.AmberMed, Colors.Amber, Colors.Lime, Colors.OrangeRed]

/-- A grid button: `Launchpad.Buttons[`x``y`] = { name, x, y, _note_key: x + y * 16 }`. -/
def gridButton (x y : Nat) : Button :=
  ⟨s!"{x}{y}", some (x : Int), some (y : Int), some ((x : Int) + (y : Int) * 16), none⟩

def Buttons.Vol : Button := ⟨"Vol", none, none, some 8, none⟩
def Buttons.Pan : Button := ⟨"Pan", none, none, some 24, none⟩
def Buttons.SendA : Button := ⟨"SendA", none, none, some 40, none⟩
def Buttons.SendB : Button := ⟨"SendB", none, none, some 56, none⟩
def Buttons.Stop : Button := ⟨"Stop", none, none, some 72, none⟩
def Buttons.TrackOn : Button := ⟨"TrackOn", none, none, some 88, none⟩
def Buttons.Solo : Button := ⟨"Solo", none, none, some 104, none⟩
def Buttons.Arm : Button := ⟨"Arm", none, none, some 120, none⟩
def Buttons.Up : Button := ⟨"Up", none, none, none, some 104⟩
def Buttons.Down : Button := ⟨"Down", none, none, none, some 105⟩
def Buttons.Left : Button := ⟨"Left", none, none, none, some 106⟩
def Buttons.Right : Button := ⟨"Right", none, none, none, some 107⟩
def Buttons.Session : Button := ⟨"Session", none, none, none, some 108⟩
def Buttons.User1 : Button := ⟨"User1", none, none, none, some 109⟩
def Buttons.User2 : Button := ⟨"User2", none, none, none, some 110⟩
def Buttons.Mixer : Button := ⟨"Mixer", none, none, none, some 111⟩

/-- The 64 grid buttons in the registry's construction order
(`y` outer, `x` inner, both `0..7`), i.e. row-major. -/
def gridButtons : List Button :=
  (List.range 8).flatMap fun y => (List.range 8).map fun x => gridButton x y

/-- All entries of `Launchpad.Buttons` in property-insertion order:
the 64 grid buttons, the 8 side buttons, the 8 top (automap) buttons. -/
def launchpadButtons : List Button :=
  gridButtons ++
  [Buttons.Vol, Buttons.Pan, Buttons.SendA, Buttons.SendB,
   Buttons.Stop, Buttons.TrackOn, Buttons.Solo, Buttons.Arm,
   Buttons.Up, Buttons.Down, Buttons.Left, Buttons.Right,
   Buttons.Session, Buttons.User1, Buttons.User2, Buttons.Mixer]

/-- Property lookup `Launchpad.Buttons[name]`. -/
def buttonsMap (name : String) : Option Button :=
  launchpadButtons.find? fun b => b.name == name

/-- The names of all registry buttons. -/
def buttonNames : List String := launchpadButtons.map fun b => b.name

/-- The order in which `Object.keys(Launchpad.Buttons)` enumerates the
registry: JavaScript places array-index-like keys first in ascending
numeric order (the grid names `"10" .. "77"`, whose first digit is not
`0`), then the remaining string keys in insertion order (`"00" .. "07"`,
then the side and top buttons). -/
def buttonsLookupOrder : List Button :=
  ((List.range 7).flatMap fun a => (List.range 8).map fun b => gridButton (a + 1) b) ++
  ((List.range 8).map fun y => gridButton 0 y) ++
  [Buttons.Vol, Buttons.Pan, Buttons.SendA, Buttons.SendB,
   Buttons.Stop, Buttons.TrackOn, Buttons.Solo, Buttons.Arm,
   Buttons.Up, Buttons.Down, Buttons.Left, Buttons.Right,
   Buttons.Session, Buttons.User1, Buttons.User2, Buttons.Mixer]

/-- A wire message: the byte list handed to `output.send` (via
`new Uint8Array(arguments)`). -/
abbrev MidiMsg := List Int

/-- A listener notification, i.e. one `_dispatchListener` call. -/
inductive Event where
  | led_changed : Event
  | pressed (button : Button) : Event
  | released (button : Button) : Event
deriving DecidableEq

/-- The mutable state of a `Launchpad` instance (the protocol core's
part of it: buffer-control flags, the two LED buffers, the pressed set). -/
structure LaunchpadState where
  flashingBuffers : Bool
  displayingBuffer : Int
  updatingBuffer : Int
  ledBuffer0 : String → Option ColorArg
  ledBuffer1 : String → Option ColorArg
  pressedButtons : Finset String

/-- `this.ledBuffers[i]` (only ever accessed with `i` equal to `0` or `1`). -/
def ledBufferAt (s : LaunchpadState) (i : Int) : String → Option ColorArg :=
  if i = 0 then s.ledBuffer0 else s.ledBuffer1

/-- `this.ledBuffers[this.updatingBuffer][name] = color`. -/
def updateLed (s : LaunchpadState) (name : String) (color : ColorArg) : LaunchpadState :=
  if s.updatingBuffer = 0 then
    { s with ledBuffer0 := fun n => if n = name then some color else s.ledBuffer0 n }
  else
    { s with ledBuffer1 := fun n => if n = name then some color else s.ledBuffer1 n }

/-- Outcome of one public command: the wire messages sent (in order), the
listener notifications dispatched (in order), and the final state or the
thrown error. -/
structure CmdResult where
  msgs : List MidiMsg
  events : List Event
  result : Except String LaunchpadState

/-- The byte a JS number becomes inside `new Uint8Array(...)`: `none`
(`NaN` or `undefined`) becomes `0`, other values are reduced mod 256. -/
def jsByte (v : Option Int) : Int := (v.getD 0) % 256

/-- `_colorToMIDIVelocity(color, changeInBothBuffers, turnOffInOtherBuffer)`.
Throws `Invalid color` when the argument is falsy, not an object, or has
both `r` and `g` undefined; otherwise returns
`turnOffInOtherBuffer(8) + changeInBothBuffers(12) + r + g*16`
(`none` = `NaN` when exactly one of `r`/`g` is undefined). -/
def _colorToMIDIVelocity (color : ColorArg)
    (changeInBothBuffers turnOffInOtherBuffer : Bool) : Except String (Option Int) :=
  match color with
  | ColorArg.nonObject => Except.error "Invalid color"
  | ColorArg.obj _ r g _ =>
    if r = none ∧ g = none then Except.error "Invalid color"
    else
      let turnOff : Int := if turnOffInOtherBuffer then 8 else 0
      let change : Int := if changeInBothBuffers then 12 else 0
      match r, g with
      | some rv, some gv => Except.ok (some (turnOff + change + rv + gv * 16))
      | _, _ => Except.ok none

/-- `reset()`: sends `[0xB0, 0, 0]`, resets the buffer-control state,
re-creates both LED buffers with every registry button set to `Off`, and
dispatches `led_changed` once. -/
def reset (s : LaunchpadState) : CmdResult :=
  { msgs := [[0xB0, 0, 0]]
    events := [Event.led_changed]
    result := Except.ok
      { flashingBuffers := false
        displayingBuffer := 0
        updatingBuffer := 0
        ledBuffer0 := fun n => if n ∈ buttonNames then some Colors.Off else none
        ledBuffer1 := fun n => if n ∈ buttonNames then some Colors.Off else none
        pressedButtons := s.pressedButtons } }

/-- `setSingleLED(button, color, changeInBothBuffers, turnOffInOtherBuffer)`:
validates the button, encodes the velocity, sends one LED-set message
addressed by the note key (status `0x90`) or automap key (status `0xB0`),
writes the color into the updating buffer and dispatches `led_changed`. -/
def setSingleLED (s : LaunchpadState) (button : Option Button) (color : ColorArg)
    (changeInBothBuffers turnOffInOtherBuffer : Bool) : CmdResult :=
  match button with
  | none => ⟨[], [], Except.error "Invalid button"⟩
  | some btn =>
    if btn._note_key = none ∧ btn._automap_key = none then
      ⟨[], [], Except.error "Invalid button"⟩
    else
      match _colorToMIDIVelocity color changeInBothBuffers turnOffInOtherBuffer with
      | Except.error e => ⟨[], [], Except.error e⟩
      | Except.ok velocity =>
        let ledID : Int :=
          match btn._note_key with
          | some k => k
          | none => btn._automap_key.getD 0
        let status : Int := if btn._note_key ≠ none then 0x90 else 0xB0
        ⟨[[status, ledID, jsByte velocity]], [Event.led_changed],
          Except.ok (updateLed s btn.name color)⟩

/-- `setDutyCycle(numerator, denominator)`: validates the ranges, then
sends one control message on address `0x1E` (numerator 1..8) or `0x1F`
(numerator 9..16). -/
def setDutyCycle (s : LaunchpadState) (numerator denominator : Int) : CmdResult :=
  if numerator < 1 ∨ numerator > 16 then ⟨[], [], Except.error "Invalid numerator"⟩
  else if denominator < 3 ∨ denominator > 18 then ⟨[], [], Except.error "Invalid denominator"⟩
  else if numerator < 9 then
    ⟨[[0xB0, 0x1E, 16 * (numerator - 1) + (denominator - 3)]], [], Except.ok s⟩
  else
    ⟨[[0xB0, 0x1F, 16 * (numerator - 9) + (denominator - 3)]], [], Except.ok s⟩

/-- `getOrderedButtons(order)` (the caching is a pure memoisation, so it
is modelled as a pure function; an unknown `order` yields `undefined`,
modelled as `none`). -/
def getOrderedButtons (order : String) : Option (List Button) :=
  if order = "physical" then
    some ((["Up", "Down", "Left", "Right", "Session", "User1", "User2", "Mixer"] ++
      ((List.range 8).flatMap fun y =>
        ((List.range 8).map fun x => s!"{x}{y}") ++
        [["Vol", "Pan", "SendA", "SendB", "Stop", "TrackOn", "Solo", "Arm"].getD y ""])).filterMap
      buttonsMap)
  else if order = "forBatch" then
    some ((((List.range 8).flatMap fun y => (List.range 8).map fun x => s!"{x}{y}") ++
      ["Vol", "Pan", "SendA", "SendB", "Stop", "TrackOn", "Solo", "Arm",
       "Up", "Down", "Left", "Right", "Session", "User1", "User2", "Mixer"]).filterMap
      buttonsMap)
  else none

/-- `colors.map(color => this._colorToMIDIVelocity(color))`: evaluated
left to right, the first throw aborts the whole map. -/
def mapVelocities : List ColorArg → Except String (List (Option Int))
  | [] => Except.ok []
  | c :: rest =>
    match _colorToMIDIVelocity c false false, mapVelocities rest with
    | Except.error e, _ => Except.error e
    | Except.ok _, Except.error e => Except.error e
    | Except.ok v, Except.ok vs => Except.ok (v :: vs)

/-- The `for (var i = 0; i < velocities.length; i += 2)` loop of
`setMultipleLED`: sends `[0x92, velocities[i], velocities[i+1]]`
(an out-of-range index reads `undefined`, which `Uint8Array` turns into
`0`), then writes `colors[i]` (and, when present and truthy,
`colors[i+1]`) into the updating buffer. -/
def batchLoop (listOfButtons : List Button) (colors : List ColorArg)
    (velocities : List (Option Int)) (i : Nat) (s : LaunchpadState) :
    LaunchpadState × List MidiMsg :=
  if h : i < velocities.length then
    let msg : MidiMsg :=
      [0x92, jsByte (velocities.getD i none), jsByte (velocities.getD (i + 1) none)]
    let s1 : LaunchpadState :=
      match listOfButtons[i]? with
      | some btn => updateLed s btn.name (colors.getD i ColorArg.nonObject)
      | none => s
    let s2 : LaunchpadState :=
      match listOfButtons[i + 1]?, colors[i + 1]? with
      | some btn, some c => if c.truthy then updateLed s1 btn.name c else s1
      | _, _ => s1
    let rest := batchLoop listOfButtons colors velocities (i + 2) s2
    (rest.1, msg :: rest.2)
  else (s, [])
termination_by velocities.length - i
decreasing_by omega

/-- `setMultipleLED(colors)`: validates the length, computes all the
velocities up front, runs the paired-message loop, then sends the flush
`setSingleLED(Buttons['00'], colors[0])` and dispatches `led_changed`
once more. -/
def setMultipleLED (s : LaunchpadState) (colors : List ColorArg) : CmdResult :=
  if colors.length = 0 then
    ⟨[], [], Except.error "Invalid colors array: Can not be empty"⟩
  else if 80 < colors.length then
    ⟨[], [], Except.error "Invalid colors array: Can not have more than 80 elements"⟩
  else
    match mapVelocities colors with
    | Except.error e => ⟨[], [], Except.error e⟩
    | Except.ok velocities =>
      let listOfButtons := (getOrderedButtons "forBatch").getD []
      let loopResult := batchLoop listOfButtons colors velocities 0 s
      let flush :=
        setSingleLED loopResult.1 (buttonsMap "00") (colors.getD 0 ColorArg.nonObject)
          false false
      match flush.result with
      | Except.error e => ⟨loopResult.2 ++ flush.msgs, flush.events, Except.error e⟩
      | Except.ok s2 =>
        ⟨loopResult.2 ++ flush.msgs, flush.events ++ [Event.led_changed], Except.ok s2⟩

/-- `isButtonPressed(button)`. -/
def isButtonPressed (s : LaunchpadState) (button : Button) : Bool :=
  decide (button.name ∈ s.pressedButtons)

/-- `_midiMessageListener(data)`: drops packets whose length is not 3 or
whose third byte is neither `0x7F` (pressed) nor `0x00` (released);
resolves the button by note key when the status byte is `0x90` and by
automap key otherwise, scanning the registry in `Object.keys` order;
updates the pressed set and dispatches the event. -/
def _midiMessageListener (s : LaunchpadState) (data : List Int) :
    LaunchpadState × List Event :=
  if data.length ≠ 3 then (s, [])
  else
    let type : Option Bool :=
      if data.getD 2 0 = 0x7F then some true
      else if data.getD 2 0 = 0x0 then some false
      else none
    match type with
    | none => (s, [])
    | some isPressed =>
      let keyOf : Button → Option Int :=
        if data.getD 0 0 = 0x90 then fun btn => btn._note_key
        else fun btn => btn._automap_key
      match buttonsLookupOrder.find? (fun btn => keyOf btn == some (data.getD 1 0)) with
      | none => (s, [])
      | some button =>
        if isPressed then
          ({ s with pressedButtons := insert button.name s.pressedButtons },
            [Event.pressed button])
        else
          ({ s with pressedButtons := s.pressedButtons.erase button.name },
            [Event.released button])

/-- The state as the constructor leaves it (no LED buffers yet, nothing
pressed; the buffer-control fields are only given values by `reset`,
which `accessDevice` calls before the instance is used). -/
def initialState : LaunchpadState :=
  { flashingBuffers := false
    displayingBuffer := 0
    updatingBuffer := 0
    ledBuffer0 := fun _ => none
    ledBuffer1 := fun _ => none
    pressedButtons := ∅ }

/-- The state right after `reset()` — the state every session starts in. -/
def stateAfterReset : LaunchpadState :=
  match (reset initialState).result with
  | Except.ok s => s
  | Except.error _ => initialState

/-- JS property access `color.r` (on an object; `nonObject` never reaches
a property access in the code because the `typeof` check rejects it first). -/
def ColorArg.r : ColorArg → Option Int
  | ColorArg.nonObject => none
  | ColorArg.obj _ r _ _ => r

/-- JS property access `color.g`. -/
def ColorArg.g : ColorArg → Option Int
  | ColorArg.nonObject => none
  | ColorArg.obj _ _ g _ => g

/-- The velocity byte as the spec's words state it:
`byte = (clearOtherBuffer?8:0) + (affectBothBuffers?12:0) + color.red + color.green*16`
(definition written from the spec, to be compared with the source's
`_colorToMIDIVelocity`; `none` when the color has no red/green fields). -/
def specVelocityByte (c : ColorArg) (affectBothBuffers clearOtherBuffer : Bool) : Option Int :=
  match c with
  | ColorArg.obj _ (some red) (some green) _ =>
    some ((if clearOtherBuffer then 8 else 0) + (if affectBothBuffers then 12 else 0) +
      red + green * 16)
  | _ => none

end Launchpad

deriving instance DecidableEq for Except

namespace Launchpad

/-- Every registry button carries a note key or an automap key. -/
lemma buttons_have_key : ∀ b ∈ launchpadButtons,
    b._note_key ≠ none ∨ b._automap_key ≠ none := by decide

/-- Note keys are unique: looking one up in `Object.keys` order finds the
button it belongs to. -/
lemma find_by_note_key_aux : ∀ b ∈ launchpadButtons,
    b._note_key = none ∨
      buttonsLookupOrder.find? (fun btn => btn._note_key == b._note_key) = some b := by
  decide

lemma find_by_note_key {b : Button} (hb : b ∈ launchpadButtons) {k : Int}
    (hk : b._note_key = some k) :
    buttonsLookupOrder.find? (fun btn => btn._note_key == some k) = some b := by
  rcases find_by_note_key_aux b hb with h | h
  · rw [hk] at h; cases h
  · rw [hk] at h; exact h

/-- The registry membership of a button gives membership of its name. -/
lemma name_mem_buttonNames {b : Button} (hb : b ∈ launchpadButtons) :
    b.name ∈ buttonNames :=
  List.mem_map_of_mem (fun b => b.name) hb

/-- Encoding a palette color never throws and matches the spec formula. -/
lemma palette_velocity : ∀ c ∈ launchpadColors, ∀ aB cO : Bool,
    _colorToMIDIVelocity c aB cO = Except.ok (specVelocityByte c aB cO) := by decide

/-- Palette colors are truthy JS values. -/
lemma palette_truthy : ∀ c ∈ launchpadColors, c.truthy = true := by decide

/-- C1 counterexample: the registry, the physical ordering and the batch
ordering each hold 80 buttons (64 grid + 8 side + 8 top), not 72. -/
theorem c1_counterexample :
    ((getOrderedButtons "physical").getD []).length = 80 ∧
    ((getOrderedButtons "forBatch").getD []).length = 80 ∧
    launchpadButtons.length = 80 ∧ (80 : Nat) ≠ 72 := by decide

/-- C1 (amended): `getOrderedButtons('physical')` and
`getOrderedButtons('forBatch')` each return every button of the registry
exactly once — 80 buttons in total; the physical order begins with the 8
top buttons; the batch order places the 64 grid buttons first in
row-major order (`y` outer, `x` inner), then the 8 side buttons, then
the 8 top buttons. -/
theorem c1_ordered_buttons :
    List.Perm ((getOrderedButtons "physical").getD []) launchpadButtons ∧
    List.Perm ((getOrderedButtons "forBatch").getD []) launchpadButtons ∧
    launchpadButtons.length = 80 ∧
    launchpadButtons.Nodup ∧
    ((getOrderedButtons "physical").getD []).take 8 =
      [Buttons.Up, Buttons.Down, Buttons.Left, Buttons.Right,
       Buttons.Session, Buttons.User1, Buttons.User2, Buttons.Mixer] ∧
    (getOrderedButtons "forBatch").getD [] =
      gridButtons ++
      [Buttons.Vol, Buttons.Pan, Buttons.SendA, Buttons.SendB,
       Buttons.Stop, Buttons.TrackOn, Buttons.Solo, Buttons.Arm] ++
      [Buttons.Up, Buttons.Down, Buttons.Left, Buttons.Right,
       Buttons.Session, Buttons.User1, Buttons.User2, Buttons.Mixer] := by decide

/-- C2 counterexample: with both flags set the encoder returns the sum
of the two flag contributions (20), not 12: `encode(Off, true, true)`
differs from `encode(Off, true, false)`. -/
theorem c2_counterexample :
    _colorToMIDIVelocity Colors.Off true true = Except.ok (some 20) ∧
    _colorToMIDIVelocity Colors.Off true false = Except.ok (some 12) ∧
    _colorToMIDIVelocity Colors.Off true true ≠
      _colorToMIDIVelocity Colors.Off true false := by decide

/-- C2 (amended): for every palette color, requesting both flags adds the
two contributions: `encode(C, true, true) = encode(C, true, false) + 8`,
i.e. the combined flag value is `8 + 12 = 20`, not 12. -/
theorem c2_flag_contributions :
    ∀ c, c ∈ launchpadColors →
      _colorToMIDIVelocity c true true =
        Except.map (Option.map fun v => v + 8) (_colorToMIDIVelocity c true false) := by
  decide

theorem c2_flag_contributions_witness :
    Colors.Red ∈ launchpadColors ∧
    _colorToMIDIVelocity Colors.Red true true =
      Except.map (Option.map fun v => v + 8) (_colorToMIDIVelocity Colors.Red true false) :=
  ⟨by decide, c2_flag_contributions Colors.Red (by decide)⟩

/-- C3: for every palette color and both flags the encoder is
deterministic (it is a function) and returns exactly
`(clearOtherBuffer?8:0) + (affectBothBuffers?12:0) + red + green*16`;
in particular `encode(Red) = 3` and `encode(Off, true, false) = 12`. -/
theorem c3_velocity_formula :
    ∀ c, c ∈ launchpadColors → ∀ affectBothBuffers clearOtherBuffer : Bool,
      _colorToMIDIVelocity c affectBothBuffers clearOtherBuffer =
        Except.ok (specVelocityByte c affectBothBuffers clearOtherBuffer) ∧
      _colorToMIDIVelocity Colors.Red false false = Except.ok (some 3) ∧
      _colorToMIDIVelocity Colors.Off true false = Except.ok (some 12) := by decide

theorem c3_velocity_formula_witness :
    Colors.Green ∈ launchpadColors ∧
    (_colorToMIDIVelocity Colors.Green true false =
        Except.ok (specVelocityByte Colors.Green true false) ∧
      _colorToMIDIVelocity Colors.Red false false = Except.ok (some 3) ∧
      _colorToMIDIVelocity Colors.Off true false = Except.ok (some 12)) :=
  ⟨by decide, c3_velocity_formula Colors.Green (by decide) true false⟩

/-- C7 counterexample: an object that is not one of the 16 palette
entries but carries `r`/`g` fields is accepted by the encoder, so
"fails iff not a recognized palette entry" is false. -/
theorem c7_counterexample :
    ColorArg.obj (some "NotAPalette") (some 5) (some 5) (some "#123456") ∉
      launchpadColors ∧
    _colorToMIDIVelocity
        (ColorArg.obj (some "NotAPalette") (some 5) (some 5) (some "#123456"))
        false false = Except.ok (some 85) := by decide

/-- C7 (amended): the encoder (and hence `setSingleLED`, for a known
button) fails with `Invalid color` iff the argument is falsy/not an
object or has both `r` and `g` undefined; it does not reject
unrecognized colors that carry `r`/`g` fields. -/
theorem c7_invalid_color_iff :
    ∀ (c : ColorArg) (aB cO : Bool) (s : LaunchpadState) (b : Button),
      b ∈ launchpadButtons →
      ((_colorToMIDIVelocity c aB cO = Except.error "Invalid color") ↔
        (c = ColorArg.nonObject ∨ (c.r = none ∧ c.g = none))) ∧
      (((setSingleLED s (some b) c aB cO).result = Except.error "Invalid color") ↔
        (c = ColorArg.nonObject ∨ (c.r = none ∧ c.g = none))) := by
  intro c aB cO s b hb
  have hbkey : ¬(b._note_key = none ∧ b._automap_key = none) := by
    rcases buttons_have_key b hb with h | h <;> tauto
  have henc : (_colorToMIDIVelocity c aB cO = Except.error "Invalid color") ↔
      (c = ColorArg.nonObject ∨ (c.r = none ∧ c.g = none)) := by
    cases c with
    | nonObject => simp [_colorToMIDIVelocity]
    | obj nm r g html =>
      cases r <;> cases g <;>
        simp [_colorToMIDIVelocity, ColorArg.r, ColorArg.g]
  refine ⟨henc, ?_⟩
  dsimp only [setSingleLED]
  rw [if_neg hbkey]
  rcases hE : _colorToMIDIVelocity c aB cO with e | v
  · have he : e = "Invalid color" := by
      cases c with
      | nonObject =>
        have h := hE
        simp only [_colorToMIDIVelocity, Except.error.injEq] at h
        exact h.symm
      | obj nm r g html =>
        cases r <;> cases g <;> simp_all [_colorToMIDIVelocity]
    subst he
    have : c = ColorArg.nonObject ∨ (c.r = none ∧ c.g = none) := henc.mp hE
    simp only []
    constructor
    · intro _; exact this
    · intro _; trivial
  · have hnot : ¬(c = ColorArg.nonObject ∨ (c.r = none ∧ c.g = none)) := by
      intro hc
      have := henc.mpr hc
      rw [hE] at this
      cases this
    simp only []
    constructor
    · intro h; cases h
    · intro hc; exact absurd hc hnot

theorem c7_invalid_color_iff_witness :
    Buttons.Vol ∈ launchpadButtons ∧
    (((_colorToMIDIVelocity ColorArg.nonObject false false =
          Except.error "Invalid color") ↔
        (ColorArg.nonObject = ColorArg.nonObject ∨
          (ColorArg.r ColorArg.nonObject = none ∧ ColorArg.g ColorArg.nonObject = none))) ∧
      (((setSingleLED stateAfterReset (some Buttons.Vol) ColorArg.nonObject false
            false).result = Except.error "Invalid color") ↔
        (ColorArg.nonObject = ColorArg.nonObject ∨
          (ColorArg.r ColorArg.nonObject = none ∧ ColorArg.g ColorArg.nonObject = none)))) :=
  ⟨by decide,
    c7_invalid_color_iff ColorArg.nonObject false false stateAfterReset Buttons.Vol
      (by decide)⟩

/-- C9: each documented validation failure is raised before any wire
message is sent: `setDutyCycle(0,3)`, `setMultipleLED([])`,
`setSingleLED(null, Red)` and a batch containing an invalid color all
throw with no message sent and no listener notified (for batches all
velocities are computed before the first paired send). -/
theorem c9_validation_before_io :
    ∀ s : LaunchpadState,
      setDutyCycle s 0 3 = ⟨[], [], Except.error "Invalid numerator"⟩ ∧
      setMultipleLED s [] = ⟨[], [], Except.error "Invalid colors array: Can not be empty"⟩ ∧
      setSingleLED s none Colors.Red false false = ⟨[], [], Except.error "Invalid button"⟩ ∧
      setMultipleLED s [Colors.Red, ColorArg.nonObject, Colors.Green] =
        ⟨[], [], Except.error "Invalid color"⟩ := by
  intro s
  refine ⟨rfl, rfl, rfl, rfl⟩

/-- C6: `reset()` sends `[0xB0, 0, 0]`, after which every registry
button reads `Off` in both LED buffers, the buffer-control state is
displaying buffer 0 / updating buffer 0 / flashing off, and the
LED-changed listeners are notified exactly once. -/
theorem c6_reset :
    ∀ (s : LaunchpadState) (b : Button), b ∈ launchpadButtons →
      (reset s).msgs = [[0xB0, 0, 0]] ∧
      (reset s).events = [Event.led_changed] ∧
      ∃ s', (reset s).result = Except.ok s' ∧
        s'.displayingBuffer = 0 ∧ s'.updatingBuffer = 0 ∧
        s'.flashingBuffers = false ∧
        s'.ledBuffer0 b.name = some Colors.Off ∧
        s'.ledBuffer1 b.name = some Colors.Off := by
  intro s b hb
  have h := name_mem_buttonNames hb
  exact ⟨rfl, rfl, _, rfl, rfl, rfl, rfl, by simp [reset, h], by simp [reset, h]⟩

theorem c6_reset_witness :
    Buttons.Vol ∈ launchpadButtons ∧
    ((reset initialState).msgs = [[0xB0, 0, 0]] ∧
     (reset initialState).events = [Event.led_changed] ∧
     ∃ s', (reset initialState).result = Except.ok s' ∧
       s'.displayingBuffer = 0 ∧ s'.updatingBuffer = 0 ∧
       s'.flashingBuffers = false ∧
       s'.ledBuffer0 Buttons.Vol.name = some Colors.Off ∧
       s'.ledBuffer1 Buttons.Vol.name = some Colors.Off) :=
  ⟨by decide, c6_reset initialState Buttons.Vol (by decide)⟩

/-- C5: `setSingleLED(button, color)` with default flags changes only the
updating buffer's entry for that button (setting it to the color), leaves
every other name in the updating buffer and the whole other buffer
untouched, and dispatches exactly one `led_changed` notification. -/
theorem c5_set_single_led :
    ∀ (s : LaunchpadState) (b : Button) (c : ColorArg) (n : String),
      b ∈ launchpadButtons → c ∈ launchpadColors →
      (s.updatingBuffer = 0 ∨ s.updatingBuffer = 1) → n ≠ b.name →
      (setSingleLED s (some b) c false false).events = [Event.led_changed] ∧
      ∃ s', (setSingleLED s (some b) c false false).result = Except.ok s' ∧
        ledBufferAt s' s.updatingBuffer b.name = some c ∧
        ledBufferAt s' s.updatingBuffer n = ledBufferAt s s.updatingBuffer n ∧
        ledBufferAt s' (1 - s.updatingBuffer) n =
          ledBufferAt s (1 - s.updatingBuffer) n ∧
        ledBufferAt s' (1 - s.updatingBuffer) b.name =
          ledBufferAt s (1 - s.updatingBuffer) b.name ∧
        s'.updatingBuffer = s.updatingBuffer ∧
        s'.displayingBuffer = s.displayingBuffer ∧
        s'.flashingBuffers = s.flashingBuffers ∧
        s'.pressedButtons = s.pressedButtons := by
  intro s b c n hb hc hu hn
  have hbkey : ¬(b._note_key = none ∧ b._automap_key = none) := by
    rcases buttons_have_key b hb with h | h <;> tauto
  have hv := palette_velocity c hc false false
  dsimp only [setSingleLED]
  rw [if_neg hbkey, hv]
  refine ⟨rfl, _, rfl, ?_, ?_, ?_, ?_, ?_, ?_, ?_, ?_⟩ <;>
    rcases hu with h | h <;>
      simp [updateLed, ledBufferAt, h, hn]

theorem c5_set_single_led_witness :
    (Buttons.Vol ∈ launchpadButtons ∧ Colors.Green ∈ launchpadColors ∧
      (stateAfterReset.updatingBuffer = 0 ∨ stateAfterReset.updatingBuffer = 1) ∧
      "11" ≠ Buttons.Vol.name) ∧
    ((setSingleLED stateAfterReset (some Buttons.Vol) Colors.Green false false).events =
        [Event.led_changed] ∧
      ∃ s', (setSingleLED stateAfterReset (some Buttons.Vol) Colors.Green false
            false).result = Except.ok s' ∧
        ledBufferAt s' stateAfterReset.updatingBuffer Buttons.Vol.name =
          some Colors.Green ∧
        ledBufferAt s' stateAfterReset.updatingBuffer "11" =
          ledBufferAt stateAfterReset stateAfterReset.updatingBuffer "11" ∧
        ledBufferAt s' (1 - stateAfterReset.updatingBuffer) "11" =
          ledBufferAt stateAfterReset (1 - stateAfterReset.updatingBuffer) "11" ∧
        ledBufferAt s' (1 - stateAfterReset.updatingBuffer) Buttons.Vol.name =
          ledBufferAt stateAfterReset (1 - stateAfterReset.updatingBuffer)
            Buttons.Vol.name ∧
        s'.updatingBuffer = stateAfterReset.updatingBuffer ∧
        s'.displayingBuffer = stateAfterReset.displayingBuffer ∧
        s'.flashingBuffers = stateAfterReset.flashingBuffers ∧
        s'.pressedButtons = stateAfterReset.pressedButtons) :=
  ⟨⟨by decide, by decide, by decide, by decide⟩,
    c5_set_single_led stateAfterReset Buttons.Vol Colors.Green "11" (by decide)
      (by decide) (by decide) (by decide)⟩

/-- C8: feeding the press message `[0x90, K, 0x7F]` for the note key `K`
of a button resolves to that button and makes `isButtonPressed` true;
the subsequent release message `[0x90, K, 0x00]` makes it false again. -/
theorem c8_press_release_roundtrip :
    ∀ (s : LaunchpadState) (b : Button) (k : Int),
      b ∈ launchpadButtons → b._note_key = some k →
      (_midiMessageListener s [0x90, k, 0x7F]).2 = [Event.pressed b] ∧
      isButtonPressed (_midiMessageListener s [0x90, k, 0x7F]).1 b = true ∧
      (_midiMessageListener (_midiMessageListener s [0x90, k, 0x7F]).1
          [0x90, k, 0x00]).2 = [Event.released b] ∧
      isButtonPressed (_midiMessageListener (_midiMessageListener s
          [0x90, k, 0x7F]).1 [0x90, k, 0x00]).1 b = false := by
  intro s b k hb hk
  have hfind := find_by_note_key hb hk
  simp only [_midiMessageListener, List.getD, List.length_cons, List.length_nil]
  norm_num
  rw [hfind]
  simp [isButtonPressed, Finset.not_mem_erase]

theorem c8_press_release_roundtrip_witness :
    (Buttons.Vol ∈ launchpadButtons ∧ Buttons.Vol._note_key = some 8) ∧
    ((_midiMessageListener stateAfterReset [0x90, 8, 0x7F]).2 =
        [Event.pressed Buttons.Vol] ∧
      isButtonPressed (_midiMessageListener stateAfterReset [0x90, 8, 0x7F]).1
        Buttons.Vol = true ∧
      (_midiMessageListener (_midiMessageListener stateAfterReset
          [0x90, 8, 0x7F]).1 [0x90, 8, 0x00]).2 = [Event.released Buttons.Vol] ∧
      isButtonPressed (_midiMessageListener (_midiMessageListener stateAfterReset
          [0x90, 8, 0x7F]).1 [0x90, 8, 0x00]).1 Buttons.Vol = false) :=
  ⟨⟨by decide, by decide⟩,
    c8_press_release_roundtrip stateAfterReset Buttons.Vol 8 (by decide) (by decide)⟩

/-- C10: delivering the same press message twice leaves the pressed set
identical to delivering it once (JS `Set` semantics, no duplicates), yet
the pressed listeners are notified once per delivery; a release message
for a button not in the set leaves the set unchanged but still notifies
the released listeners. -/
theorem c10_pressed_set_semantics :
    ∀ (s : LaunchpadState) (b : Button) (k : Int),
      b ∈ launchpadButtons → b._note_key = some k →
      b.name ∉ s.pressedButtons →
      (_midiMessageListener (_midiMessageListener s [0x90, k, 0x7F]).1
          [0x90, k, 0x7F]).1.pressedButtons =
        (_midiMessageListener s [0x90, k, 0x7F]).1.pressedButtons ∧
      b.name ∈ (_midiMessageListener s [0x90, k, 0x7F]).1.pressedButtons ∧
      (_midiMessageListener s [0x90, k, 0x7F]).2 = [Event.pressed b] ∧
      (_midiMessageListener (_midiMessageListener s [0x90, k, 0x7F]).1
          [0x90, k, 0x7F]).2 = [Event.pressed b] ∧
      (_midiMessageListener s [0x90, k, 0x00]).1.pressedButtons =
        s.pressedButtons ∧
      (_midiMessageListener s [0x90, k, 0x00]).2 = [Event.released b] := by
  intro s b k hb hk h0
  have hfind := find_by_note_key hb hk
  simp only [_midiMessageListener, List.getD, List.length_cons, List.length_nil]
  norm_num
  rw [hfind]
  simp [Finset.insert_idem, Finset.erase_eq_of_not_mem h0]

theorem c10_pressed_set_semantics_witness :
    (Buttons.Vol ∈ launchpadButtons ∧ Buttons.Vol._note_key = some 8 ∧
      Buttons.Vol.name ∉ stateAfterReset.pressedButtons) ∧
    ((_midiMessageListener (_midiMessageListener stateAfterReset
          [0x90, 8, 0x7F]).1 [0x90, 8, 0x7F]).1.pressedButtons =
        (_midiMessageListener stateAfterReset [0x90, 8, 0x7F]).1.pressedButtons ∧
      Buttons.Vol.name ∈
        (_midiMessageListener stateAfterReset [0x90, 8, 0x7F]).1.pressedButtons ∧
      (_midiMessageListener stateAfterReset [0x90, 8, 0x7F]).2 =
        [Event.pressed Buttons.Vol] ∧
      (_midiMessageListener (_midiMessageListener stateAfterReset
          [0x90, 8, 0x7F]).1 [0x90, 8, 0x7F]).2 = [Event.pressed Buttons.Vol] ∧
      (_midiMessageListener stateAfterReset [0x90, 8, 0x00]).1.pressedButtons =
        stateAfterReset.pressedButtons ∧
      (_midiMessageListener stateAfterReset [0x90, 8, 0x00]).2 =
        [Event.released Buttons.Vol]) :=
  ⟨⟨by decide, by decide, by decide⟩,
    c10_pressed_set_semantics stateAfterReset Buttons.Vol 8 (by decide) (by decide)
      (by decide)⟩

/-- `updateLed` only touches the LED buffers. -/
lemma updateLed_fields (s : LaunchpadState) (name : String) (c : ColorArg) :
    (updateLed s name c).updatingBuffer = s.updatingBuffer ∧
    (updateLed s name c).displayingBuffer = s.displayingBuffer ∧
    (updateLed s name c).flashingBuffers = s.flashingBuffers ∧
    (updateLed s name c).pressedButtons = s.pressedButtons := by
  unfold updateLed
  split <;> exact ⟨rfl, rfl, rfl, rfl⟩

/-- `updateLed` leaves every other name alone, in both raw buffers. -/
lemma updateLed_other (s : LaunchpadState) (name n : String) (c : ColorArg)
    (h : n ≠ name) :
    (updateLed s name c).ledBuffer0 n = s.ledBuffer0 n ∧
    (updateLed s name c).ledBuffer1 n = s.ledBuffer1 n := by
  unfold updateLed
  split <;> simp [h]

/-- `updateLed` writes the color into the updating buffer's entry. -/
lemma updateLed_self (s : LaunchpadState) (name : String) (c : ColorArg) :
    ledBufferAt (updateLed s name c) s.updatingBuffer name = some c := by
  unfold updateLed ledBufferAt
  split <;> rename_i h <;> simp [h]

/-- Re-writing a value that is already present changes neither buffer. -/
lemma updateLed_inert (s : LaunchpadState) (name n : String) (c : ColorArg)
    (hsame : ledBufferAt s s.updatingBuffer name = some c) :
    (updateLed s name c).ledBuffer0 n = s.ledBuffer0 n ∧
    (updateLed s name c).ledBuffer1 n = s.ledBuffer1 n := by
  unfold updateLed
  unfold ledBufferAt at hsame
  by_cases hn : n = name
  · subst hn
    by_cases h0 : s.updatingBuffer = 0 <;> simp_all
  · split <;> simp [hn]

/-- `mapVelocities` succeeds on a list of palette colors and records the
per-index velocities. -/
lemma mapVelocities_palette :
    ∀ (colors : List ColorArg), (∀ c ∈ colors, c ∈ launchpadColors) →
      ∃ vs, mapVelocities colors = Except.ok vs ∧ vs.length = colors.length ∧
        ∀ i, i < colors.length →
          _colorToMIDIVelocity (colors.getD i ColorArg.nonObject) false false =
            Except.ok (vs.getD i none) := by
  intro colors
  induction colors with
  | nil =>
    intro _
    exact ⟨[], rfl, rfl, fun i hi => absurd hi (by simp)⟩
  | cons c rest ih =>
    intro h
    obtain ⟨vs, hvs, hlen, hget⟩ := ih fun x hx => h x (List.mem_cons_of_mem _ hx)
    have hc := palette_velocity c (h c (List.mem_cons_self _ _)) false false
    refine ⟨specVelocityByte c false false :: vs, ?_, by simp [hlen], ?_⟩
    · unfold mapVelocities
      rw [hc, hvs]
    · intro i hi
      cases i with
      | zero => simpa using hc
      | succ j =>
        have hj : j < rest.length := by simpa using hi
        simpa using hget j hj

/-- The batch loop never touches the buffer-control fields or the
pressed set. -/
lemma batchLoop_fields (B : List Button) (C : List ColorArg)
    (V : List (Option Int)) :
    ∀ (m i : Nat) (s : LaunchpadState), V.length - i ≤ m →
      (batchLoop B C V i s).1.updatingBuffer = s.updatingBuffer ∧
      (batchLoop B C V i s).1.displayingBuffer = s.displayingBuffer ∧
      (batchLoop B C V i s).1.flashingBuffers = s.flashingBuffers ∧
      (batchLoop B C V i s).1.pressedButtons = s.pressedButtons := by
  intro m
  induction m with
  | zero =>
    intro i s hm
    have hi : ¬ i < V.length := by omega
    rw [batchLoop, dif_neg hi]
    exact ⟨rfl, rfl, rfl, rfl⟩
  | succ m ih =>
    intro i s hm
    by_cases hi : i < V.length
    · rw [batchLoop, dif_pos hi]
      dsimp only
      have hfield1 : ∀ (s0 : LaunchpadState),
          (match B[i]? with
            | some btn => updateLed s0 btn.name (C.getD i ColorArg.nonObject)
            | none => s0).updatingBuffer = s0.updatingBuffer ∧
          (match B[i]? with
            | some btn => updateLed s0 btn.name (C.getD i ColorArg.nonObject)
            | none => s0).displayingBuffer = s0.displayingBuffer ∧
          (match B[i]? with
            | some btn => updateLed s0 btn.name (C.getD i ColorArg.nonObject)
            | none => s0).flashingBuffers = s0.flashingBuffers ∧
          (match B[i]? with
            | some btn => updateLed s0 btn.name (C.getD i ColorArg.nonObject)
            | none => s0).pressedButtons = s0.pressedButtons := by
        intro s0
        cases B[i]? with
        | none => exact ⟨rfl, rfl, rfl, rfl⟩
        | some btn => exact updateLed_fields s0 btn.name _
      have hfield2 : ∀ (s0 : LaunchpadState),
          (match B[i + 1]?, C[i + 1]? with
            | some btn, some c => if c.truthy then updateLed s0 btn.name c else s0
            | _, _ => s0).updatingBuffer = s0.updatingBuffer ∧
          (match B[i + 1]?, C[i + 1]? with
            | some btn, some c => if c.truthy then updateLed s0 btn.name c else s0
            | _, _ => s0).displayingBuffer = s0.displayingBuffer ∧
          (match B[i + 1]?, C[i + 1]? with
            | some btn, some c => if c.truthy then updateLed s0 btn.name c else s0
            | _, _ => s0).flashingBuffers = s0.flashingBuffers ∧
          (match B[i + 1]?, C[i + 1]? with
            | some btn, some c => if c.truthy then updateLed s0 btn.name c else s0
            | _, _ => s0).pressedButtons = s0.pressedButtons := by
        intro s0
        cases B[i + 1]? with
        | none => exact ⟨rfl, rfl, rfl, rfl⟩
        | some btn =>
          cases C[i + 1]? with
          | none => exact ⟨rfl, rfl, rfl, rfl⟩
          | some c =>
            by_cases ht : c.truthy <;> simp only [ht, if_true, if_false] <;>
              first
              | exact updateLed_fields s0 btn.name c
              | exact ⟨rfl, rfl, rfl, rfl⟩
      obtain ⟨hu1, hd1, hf1, hp1⟩ := hfield1 s
      obtain ⟨hu2, hd2, hf2, hp2⟩ := hfield2 _
      obtain ⟨hu3, hd3, hf3, hp3⟩ := ih (i + 2) _ (by omega)
      exact ⟨by rw [hu3, hu2, hu1], by rw [hd3, hd2, hd1],
        by rw [hf3, hf2, hf1], by rw [hp3, hp2, hp1]⟩
    · rw [batchLoop, dif_neg hi]
      exact ⟨rfl, rfl, rfl, rfl⟩

/-- The batch loop starting at index `i` leaves every name that does not
occur among the buttons from position `i` on untouched, in both buffers. -/
lemma batchLoop_buffer_preserve (B : List Button) (C : List ColorArg)
    (V : List (Option Int)) (n : String) :
    ∀ (m i : Nat) (s : LaunchpadState), V.length - i ≤ m →
      n ∉ (B.drop i).map (fun b => b.name) →
      (batchLoop B C V i s).1.ledBuffer0 n = s.ledBuffer0 n ∧
      (batchLoop B C V i s).1.ledBuffer1 n = s.ledBuffer1 n := by
  intro m
  induction m with
  | zero =>
    intro i s hm hn
    have hi : ¬ i < V.length := by omega
    rw [batchLoop, dif_neg hi]
    exact ⟨rfl, rfl⟩
  | succ m ih =>
    intro i s hm hn
    by_cases hi : i < V.length
    · rw [batchLoop, dif_pos hi]
      dsimp only
      have hne : ∀ (j : Nat) (btn : Button), B[i + j]? = some btn → n ≠ btn.name := by
        intro j btn hbtn hEq
        apply hn
        have hmem : btn ∈ B.drop i := by
          have hdj : (B.drop i)[j]? = some btn := by
            rw [List.getElem?_drop]
            exact hbtn
          exact List.getElem?_mem hdj
        exact hEq ▸ List.mem_map_of_mem (fun b => b.name) hmem
      have hdrop2 : n ∉ (B.drop (i + 2)).map (fun b => b.name) := by
        intro hmem
        apply hn
        obtain ⟨b, hb, hbn⟩ := List.mem_map.mp hmem
        refine List.mem_map.mpr ⟨b, ?_, hbn⟩
        have hb' : b ∈ (B.drop i).drop 2 := by
          have h22 : (B.drop i).drop 2 = B.drop (i + 2) := by
            rw [List.drop_drop]
          rw [h22]
          exact hb
        exact List.drop_subset 2 (B.drop i) hb'
      have hs1 : ∀ s0 : LaunchpadState,
          (match B[i]? with
            | some btn => updateLed s0 btn.name (C.getD i ColorArg.nonObject)
            | none => s0).ledBuffer0 n = s0.ledBuffer0 n ∧
          (match B[i]? with
            | some btn => updateLed s0 btn.name (C.getD i ColorArg.nonObject)
            | none => s0).ledBuffer1 n = s0.ledBuffer1 n := by
        intro s0
        cases hB : B[i]? with
        | none => exact ⟨rfl, rfl⟩
        | some btn => exact updateLed_other s0 btn.name n _ (hne 0 btn hB)
      have hs2 : ∀ s0 : LaunchpadState,
          (match B[i + 1]?, C[i + 1]? with
            | some btn, some c => if c.truthy then updateLed s0 btn.name c else s0
            | _, _ => s0).ledBuffer0 n = s0.ledBuffer0 n ∧
          (match B[i + 1]?, C[i + 1]? with
            | some btn, some c => if c.truthy then updateLed s0 btn.name c else s0
            | _, _ => s0).ledBuffer1 n = s0.ledBuffer1 n := by
        intro s0
        cases hB : B[i + 1]? with
        | none => exact ⟨rfl, rfl⟩
        | some btn =>
          cases C[i + 1]? with
          | none => exact ⟨rfl, rfl⟩
          | some c =>
            by_cases ht : c.truthy <;> simp only [ht, if_true, if_false]
            · exact updateLed_other s0 btn.name n c (hne 1 btn hB)
            · exact ⟨rfl, rfl⟩
      obtain ⟨h01, h02⟩ := hs1 s
      obtain ⟨h11, h12⟩ := hs2 _
      obtain ⟨h21, h22⟩ := ih (i + 2) _ (by omega) hdrop2
      exact ⟨by rw [h21, h11, h01], by rw [h22, h12, h02]⟩
    · rw [batchLoop, dif_neg hi]
      exact ⟨rfl, rfl⟩

/-- After the full batch loop, button `'00'` (the first entry of the
batch order) holds `colors[0]` in the updating buffer. -/
lemma batchLoop_first_entry (colors : List ColorArg)
    (velocities : List (Option Int)) (s : LaunchpadState)
    (hlen : velocities.length = colors.length) (h0 : 0 < colors.length) :
    ledBufferAt
        (batchLoop ((getOrderedButtons "forBatch").getD []) colors velocities 0 s).1
        s.updatingBuffer "00" =
      some (colors.getD 0 ColorArg.nonObject) := by
  have hi : 0 < velocities.length := by omega
  rw [batchLoop, dif_pos hi]
  dsimp only
  rw [show ((getOrderedButtons "forBatch").getD [])[0]? = some (gridButton 0 0) from
    by decide]
  dsimp only
  rw [show (gridButton 0 0).name = "00" from by decide]
  have hs1 : ledBufferAt (updateLed s "00" (colors.getD 0 ColorArg.nonObject))
      s.updatingBuffer "00" = some (colors.getD 0 ColorArg.nonObject) := by
    have h := updateLed_self s "00" (colors.getD 0 ColorArg.nonObject)
    have hu := (updateLed_fields s "00" (colors.getD 0 ColorArg.nonObject)).1
    exact h
  have hfinal : ∀ sx : LaunchpadState,
      sx.ledBuffer0 "00" =
        (updateLed s "00" (colors.getD 0 ColorArg.nonObject)).ledBuffer0 "00" →
      sx.ledBuffer1 "00" =
        (updateLed s "00" (colors.getD 0 ColorArg.nonObject)).ledBuffer1 "00" →
      ledBufferAt sx s.updatingBuffer "00" = some (colors.getD 0 ColorArg.nonObject) := by
    intro sx e0 e1
    unfold ledBufferAt at hs1 ⊢
    by_cases hu : s.updatingBuffer = 0 <;> simp_all
  rw [show ((getOrderedButtons "forBatch").getD [])[0 + 1]? = some (gridButton 1 0) from
    by decide]
  cases hC1 : colors[0 + 1]? with
  | none =>
    dsimp only
    obtain ⟨e0, e1⟩ := batchLoop_buffer_preserve
      ((getOrderedButtons "forBatch").getD []) colors velocities "00"
      velocities.length (0 + 2) _ (by omega) (by decide)
    exact hfinal _ e0 e1
  | some c1 =>
    dsimp only
    by_cases ht : c1.truthy <;> simp only [ht, if_true, if_false]
    · obtain ⟨e0, e1⟩ := batchLoop_buffer_preserve
        ((getOrderedButtons "forBatch").getD []) colors velocities "00"
        velocities.length (0 + 2) _ (by omega) (by decide)
      obtain ⟨f0, f1⟩ := updateLed_other
        (updateLed s "00" (colors.getD 0 ColorArg.nonObject)) (gridButton 1 0).name
        "00" c1 (by decide)
      exact hfinal _ (by rw [e0, f0]) (by rw [e1, f1])
    · obtain ⟨e0, e1⟩ := batchLoop_buffer_preserve
        ((getOrderedButtons "forBatch").getD []) colors velocities "00"
        velocities.length (0 + 2) _ (by omega) (by decide)
      exact hfinal _ e0 e1

/-- The flush command `setSingleLED(Buttons['00'], c)` reduced on the
known button `'00'` (note key 0). -/
lemma setSingleLED_00 (s : LaunchpadState) (c : ColorArg) (v : Option Int)
    (hv : _colorToMIDIVelocity c false false = Except.ok v) :
    setSingleLED s (buttonsMap "00") c false false =
      ⟨[[0x90, 0, jsByte v]], [Event.led_changed],
        Except.ok (updateLed s "00" c)⟩ := by
  rw [show buttonsMap "00" = some (gridButton 0 0) from by decide]
  dsimp only [setSingleLED]
  rw [if_neg (by decide), hv]
  rfl

/-- C4 counterexample: for the valid one-element batch `[Red]` the
LED-changed listeners are notified twice (once by the flush
`setSingleLED`, once by the final dispatch), not exactly once. -/
theorem c4_counterexample :
    (setMultipleLED stateAfterReset [Colors.Red]).events =
      [Event.led_changed, Event.led_changed] ∧
    (setMultipleLED stateAfterReset [Colors.Red]).events ≠ [Event.led_changed] := by
  constructor
  · rfl
  · intro h
    cases h

/-- C4 (amended): for every valid batch of 1 to 80 palette colors,
`setMultipleLED` sends, after its paired-message loop, one additional
single-LED command `[0x90, 0, velocity(colors[0])]` that re-applies
`colors[0]` to button `'00'` — a flush with no further semantic effect
on buffer state — and notifies the LED-changed listeners exactly twice:
once from the flush's `setSingleLED` and once at the end. -/
theorem c4_batch_flush :
    ∀ (s : LaunchpadState) (colors : List ColorArg) (n : String),
      colors ≠ [] → colors.length ≤ 80 →
      (∀ c ∈ colors, c ∈ launchpadColors) →
      ∃ velocities s',
        mapVelocities colors = Except.ok velocities ∧
        (setMultipleLED s colors).msgs =
          (batchLoop ((getOrderedButtons "forBatch").getD []) colors velocities
              0 s).2 ++
            [[0x90, 0, jsByte (velocities.getD 0 none)]] ∧
        (setMultipleLED s colors).events =
          [Event.led_changed, Event.led_changed] ∧
        (setMultipleLED s colors).result = Except.ok s' ∧
        ledBufferAt s' s.updatingBuffer "00" =
          some (colors.getD 0 ColorArg.nonObject) ∧
        s'.ledBuffer0 n =
          (batchLoop ((getOrderedButtons "forBatch").getD []) colors velocities
              0 s).1.ledBuffer0 n ∧
        s'.ledBuffer1 n =
          (batchLoop ((getOrderedButtons "forBatch").getD []) colors velocities
              0 s).1.ledBuffer1 n ∧
        s'.updatingBuffer = s.updatingBuffer ∧
        s'.displayingBuffer = s.displayingBuffer ∧
        s'.flashingBuffers = s.flashingBuffers ∧
        s'.pressedButtons = s.pressedButtons := by
  intro s colors n hne hlen80 hpal
  obtain ⟨velocities, hvs, hlen, hget⟩ := mapVelocities_palette colors hpal
  have h0 : 0 < colors.length := List.length_pos.mpr hne
  have henc0 := hget 0 h0
  have hred : setMultipleLED s colors =
      ⟨(batchLoop ((getOrderedButtons "forBatch").getD []) colors velocities
            0 s).2 ++
          [[0x90, 0, jsByte (velocities.getD 0 none)]],
        [Event.led_changed, Event.led_changed],
        Except.ok (updateLed
          (batchLoop ((getOrderedButtons "forBatch").getD []) colors velocities
            0 s).1
          "00" (colors.getD 0 ColorArg.nonObject))⟩ := by
    have hn0 : ¬ colors.length = 0 := by omega
    have hn80 : ¬ 80 < colors.length := by omega
    unfold setMultipleLED
    rw [if_neg hn0, if_neg hn80, hvs]
    dsimp only
    rw [setSingleLED_00 _ _ _ henc0]
    rfl
  have hup : (batchLoop ((getOrderedButtons "forBatch").getD []) colors velocities
      0 s).1.updatingBuffer = s.updatingBuffer :=
    (batchLoop_fields _ colors velocities velocities.length 0 s (by omega)).1
  have hfirst := batchLoop_first_entry colors velocities s hlen h0
  have hsame : ledBufferAt
      (batchLoop ((getOrderedButtons "forBatch").getD []) colors velocities 0 s).1
      ((batchLoop ((getOrderedButtons "forBatch").getD []) colors velocities
          0 s).1.updatingBuffer) "00" =
      some (colors.getD 0 ColorArg.nonObject) := by
    rw [hup]
    exact hfirst
  have hfields := updateLed_fields
    (batchLoop ((getOrderedButtons "forBatch").getD []) colors velocities 0 s).1
    "00" (colors.getD 0 ColorArg.nonObject)
  have hloopfields := batchLoop_fields ((getOrderedButtons "forBatch").getD [])
    colors velocities velocities.length 0 s (by omega)
  have hinert := updateLed_inert
    (batchLoop ((getOrderedButtons "forBatch").getD []) colors velocities 0 s).1
    "00" n (colors.getD 0 ColorArg.nonObject) hsame
  refine ⟨velocities,
    updateLed (batchLoop ((getOrderedButtons "forBatch").getD []) colors velocities
      0 s).1 "00" (colors.getD 0 ColorArg.nonObject),
    hvs, ?_, ?_, ?_, ?_, ?_, ?_, ?_, ?_, ?_, ?_⟩
  · rw [hred]
  · rw [hred]
  · rw [hred]
  · have h := updateLed_self
      (batchLoop ((getOrderedButtons "forBatch").getD []) colors velocities 0 s).1
      "00" (colors.getD 0 ColorArg.nonObject)
    rw [hup] at h
    exact h
  · exact hinert.1
  · exact hinert.2
  · rw [hfields.1, hloopfields.1]
  · rw [hfields.2.1, hloopfields.2.1]
  · rw [hfields.2.2.1, hloopfields.2.2.1]
  · rw [hfields.2.2.2, hloopfields.2.2.2]

theorem c4_batch_flush_witness :
    (([Colors.Red] : List ColorArg) ≠ [] ∧
      ([Colors.Red] : List ColorArg).length ≤ 80 ∧
      (∀ c ∈ ([Colors.Red] : List ColorArg), c ∈ launchpadColors)) ∧
    (∃ velocities s',
      mapVelocities [Colors.Red] = Except.ok velocities ∧
      (setMultipleLED stateAfterReset [Colors.Red]).msgs =
        (batchLoop ((getOrderedButtons "forBatch").getD []) [Colors.Red]
            velocities 0 stateAfterReset).2 ++
          [[0x90, 0, jsByte (velocities.getD 0 none)]] ∧
      (setMultipleLED stateAfterReset [Colors.Red]).events =
        [Event.led_changed, Event.led_changed] ∧
      (setMultipleLED stateAfterReset [Colors.Red]).result = Except.ok s' ∧
      ledBufferAt s' stateAfterReset.updatingBuffer "00" =
        some (([Colors.Red] : List ColorArg).getD 0 ColorArg.nonObject) ∧
      s'.ledBuffer0 "34" =
        (batchLoop ((getOrderedButtons "forBatch").getD []) [Colors.Red]
            velocities 0 stateAfterReset).1.ledBuffer0 "34" ∧
      s'.ledBuffer1 "34" =
        (batchLoop ((getOrderedButtons "forBatch").getD []) [Colors.Red]
            velocities 0 stateAfterReset).1.ledBuffer1 "34" ∧
      s'.updatingBuffer = stateAfterReset.updatingBuffer ∧
      s'.displayingBuffer = stateAfterReset.displayingBuffer ∧
      s'.flashingBuffers = stateAfterReset.flashingBuffers ∧
      s'.pressedButtons = stateAfterReset.pressedButtons) :=
  ⟨⟨by decide, by decide, by decide⟩,
    c4_batch_flush stateAfterReset [Colors.Red] "34" (by decide) (by decide)
      (by decide)⟩

end Launchpad
